import Mathlib

/-!
Verification of the biomedical question-answering pipeline repository
(agents `WorkflowAgent` / `LifeScienceAgent` and the `WorkflowEvaluator`).

The development shallowly embeds the Python sources:

* `src/src/agents/workflow_agent.py` — the 5-stage pipeline
  (classify → extract → generate → execute → format) and its public entry
  point `answer_question`;
* `src/src/agents/langgraph_agent.py` — the `LifeScienceAgent` variant of
  the execute stage (with query validation);
* `src/evaluation_metrics/evaluation_metrics.py` — the `WorkflowEvaluator`
  (string normalization, value extraction from result rows, per-example
  scoring, conversation grouping, aggregate report).

External collaborators (the Anthropic LLM calls, the Neo4j query store,
`json.loads`, wall-clock timing) are modelled as function-valued record
fields; a Python exception raised by a collaborator is an `Except.error`
value.  Python control flow that catches exceptions is translated to
explicit matches on those `Except` values; code outside any `try` block
propagates an `Except.error` to its caller.
-/

/-! ## Model of the Python string primitives used by the sources

Python's `str.lower`, `str.strip`, single-character `str.replace`,
`str.startswith`, `str.split("\n")` and `"\n".join` are modelled on the
underlying character lists.  `str.lower` is modelled by `Char.toLower`
(ASCII lowering — the sources only ever compare ASCII identifiers and
biomedical names).
-/

/-- Characters removed by Python's `str.strip()` (its ASCII whitespace set). -/
def pyIsSpace (c : Char) : Bool :=
  c = ' ' || c = '\t' || c = '\n' || c = '\r' || c = '\x0b' || c = '\x0c'

/-- Python `str.strip()` on a character list: drop whitespace from both ends. -/
def stripChars (cs : List Char) : List Char :=
  ((cs.dropWhile pyIsSpace).reverse.dropWhile pyIsSpace).reverse

/-- Python `str.strip()`. -/
def pyStrip (s : String) : String := ⟨stripChars s.data⟩

/-- Python `str.replace(a, b)` for single characters `a`, `b`. -/
def replaceChar (a b : Char) (c : Char) : Char := if c = a then b else c

/-- Model of `WorkflowEvaluator._normalize_string` (evaluation_metrics.py
lines 18-20), applied to a value that is already a string:
`s.lower().strip().replace('_', ' ').replace('-', ' ')`. -/
def pyNormalize (s : String) : String :=
  ⟨((stripChars (s.data.map Char.toLower)).map (replaceChar '_' ' ')).map
      (replaceChar '-' ' ')⟩

/-- Python `s.startswith(pre)`. -/
def pyStartsWith (s pre : String) : Bool := pre.data.isPrefixOf s.data

/-- Python `s.split("\n")` on a character list. -/
def splitLines (cs : List Char) : List (List Char) :=
  cs.foldr
    (fun c acc =>
      match acc with
      | [] => [[c]]
      | g :: gs => if c = '\n' then [] :: g :: gs else (c :: g) :: gs)
    [[]]

/-- Python `"\n".join(lines)` on character lists. -/
def joinLines (ls : List (List Char)) : List Char :=
  match ls with
  | [] => []
  | [l] => l
  | l :: ls => l ++ '\n' :: joinLines ls

/-! ## Model of Python values

Rows returned by the query store and expected answer values from the
golden dataset are JSON-like Python values.  A mutual inductive keeps all
recursion structural (a float is carried as its `repr` string; no claim
depends on float arithmetic). -/

mutual
/-- A Python value as handled by the evaluator: `str`, `int`, `float`
(carried by its printed form), `None`, `list`, `dict`. -/
inductive PyVal where
  | str (s : String)
  | int (n : Int)
  | floatv (printed : String)
  | pynone
  | list (xs : PyValList)
  | dict (kvs : PyValDict)

/-- A Python list of `PyVal`s. -/
inductive PyValList where
  | nil
  | cons (hd : PyVal) (tl : PyValList)

/-- A Python dict with string keys and `PyVal` values (insertion order). -/
inductive PyValDict where
  | nil
  | cons (key : String) (val : PyVal) (tl : PyValDict)
end

deriving instance DecidableEq for PyVal, PyValList, PyValDict

/-- Elements of a Python list value, as a Lean list. -/
def PyValList.elems : PyValList → List PyVal
  | .nil => []
  | .cons h t => h :: t.elems

/-- The values of a Python dict, in insertion order (`dict.values()`). -/
def PyValDict.vals : PyValDict → List PyVal
  | .nil => []
  | .cons _ v t => v :: t.vals

mutual
/-- Python `str(v)`. -/
def pyStr : PyVal → String
  | .str s => s
  | .int n => toString n
  | .floatv printed => printed
  | .pynone => "None"
  | .list xs => "[" ++ pyStrElems xs ++ "]"
  | .dict kvs => "\x7b" ++ pyStrEntries kvs ++ "\x7d"

/-- Python `repr(v)` (as used for elements printed inside containers);
string escapes are not modelled, which is faithful for quote-free text. -/
def pyReprVal : PyVal → String
  | .str s => "'" ++ s ++ "'"
  | .int n => toString n
  | .floatv printed => printed
  | .pynone => "None"
  | .list xs => "[" ++ pyStrElems xs ++ "]"
  | .dict kvs => "\x7b" ++ pyStrEntries kvs ++ "\x7d"

/-- Comma-separated `repr`s of list elements. -/
def pyStrElems : PyValList → String
  | .nil => ""
  | .cons h .nil => pyReprVal h
  | .cons h t@(.cons _ _) => pyReprVal h ++ ", " ++ pyStrElems t

/-- Comma-separated `key: repr(value)` entries of a dict. -/
def pyStrEntries : PyValDict → String
  | .nil => ""
  | .cons k v .nil => "'" ++ k ++ "': " ++ pyReprVal v
  | .cons k v t@(.cons _ _ _) => "'" ++ k ++ "': " ++ pyReprVal v ++ ", " ++ pyStrEntries t
end

/-- Model of `WorkflowEvaluator._normalize_string` on an arbitrary value:
the source first applies `str(s)`. -/
def normalizeVal (v : PyVal) : String := pyNormalize (pyStr v)

/-! ## Model of the `WorkflowAgent` pipeline (workflow_agent.py)

The compiled LangGraph workflow is the linear chain
`classify → extract → generate → execute → format` (edges added in
`_create_workflow`, lines 107-114), so `workflow.invoke` is embedded as
the sequential composition of the five stage functions. -/

/-- A raised Python exception, carried by its message (`str(e)`). -/
structure PyErr where
  msg : String
deriving DecidableEq

/-- Results of Python calls that may raise. -/
abbrev PyResult (α : Type) : Type := Except PyErr α

/-- The external collaborators of `WorkflowAgent`: one Anthropic call per
LLM stage (each modelled as receiving the data interpolated into its
prompt and returning the response text), `json.loads` restricted to the
declared entity-list shape (`none` = the parse raised, which the source
catches), and `GraphInterface.execute_query`. -/
structure Collab where
  classify : String → PyResult String
  extractAPI : String → PyResult String
  parseEntities : String → Option (List String)
  generate : String → String → List String → PyResult String
  executeQuery : String → PyResult (List PyVal)
  formatLLM : String → List PyVal → Nat → PyResult String

/-- The `WorkflowState` record (workflow_agent.py lines 32-47). -/
structure WorkflowState where
  user_question : String
  question_type : Option String
  entities : Option (List String)
  cypher_query : Option String
  results : Option (List PyVal)
  final_answer : Option String
  error : Option String
deriving DecidableEq

/-- The initial state built by `answer_question` (lines 349-357). -/
def initState (question : String) : WorkflowState :=
  { user_question := question
    question_type := none
    entities := none
    cypher_query := none
    results := none
    final_answer := none
    error := none }

/-- Stage 1, `WorkflowAgent.classify_question` (lines 119-154): the LLM
call is not inside any `try`, so its exception propagates; on success the
stripped response text is stored verbatim in `question_type`. -/
def classify_question (c : Collab) (s : WorkflowState) : PyResult WorkflowState := do
  let t ← c.classify s.user_question
  pure { s with question_type := some (pyStrip t) }

/-- Stage 2, `WorkflowAgent.extract_entities` (lines 156-198): the LLM
call itself is outside the `try` (its exception propagates); parsing the
response with `json.loads` is inside the `try`, and a parse failure
stores the empty entity list. -/
def extract_entities (c : Collab) (s : WorkflowState) : PyResult WorkflowState := do
  let t ← c.extractAPI s.user_question
  match c.parseEntities (pyStrip t) with
  | some es => pure { s with entities := some es }
  | none => pure { s with entities := some [] }

/-- The fenced-code-block cleanup applied to the generated query
(lines 244-257): strip, then if the text starts with three backticks,
drop every line starting with three backticks or with `cypher`. -/
def cleanQuery (raw : String) : String :=
  let q := pyStrip raw
  if pyStartsWith q "```" then
    ⟨joinLines ((splitLines q.data).filter
        (fun l => !(pyStartsWith ⟨l⟩ "```") && !(pyStartsWith ⟨l⟩ "cypher")))⟩
  else q

/-- Stage 3, `WorkflowAgent.generate_query` (lines 200-260): the LLM call
(not inside any `try`) receives the question, the question type
(`state.get('question_type', 'general')`), and the entity list
(`state.get('entities', [])`); the cleaned response is stored in
`cypher_query`. -/
def generate_query (c : Collab) (s : WorkflowState) : PyResult WorkflowState := do
  let t ← c.generate s.user_question (s.question_type.getD "general") (s.entities.getD [])
  pure { s with cypher_query := some (cleanQuery t) }

/-- Stage 4, `WorkflowAgent.execute_query` (lines 262-284): inside
`try`, a truthy `cypher_query` is executed and the rows stored; a falsy
one (absent or the empty string) yields empty rows with no error; any
exception from the store is caught, setting `error` and empty rows.
This stage never raises. -/
def execute_query (c : Collab) (s : WorkflowState) : WorkflowState :=
  match s.cypher_query with
  | some q =>
    if q ≠ "" then
      match c.executeQuery q with
      | .ok rs => { s with results := some rs }
      | .error e => { s with error := some ("Query failed: " ++ e.msg), results := some [] }
    else { s with results := some [] }
  | none => { s with results := some [] }

/-- The fixed message used when no rows were found (lines 302-305). -/
def noInfoMsg : String :=
  "I didn't find any information for that question. " ++
  "Try asking about genes, diseases, or drugs in our database."

/-- The error-path template (lines 293-297). -/
def errorAnswer (err : String) : String :=
  "Sorry, I had trouble with that question: " ++ err

/-- Stage 5, `WorkflowAgent.format_answer` (lines 286-336): the error
path and the empty-rows path synthesize fixed texts without any
collaborator call; otherwise the formatter LLM is invoked with the
question, the first 5 rows, and the total row count (that call is not
inside any `try`). -/
def format_answer (c : Collab) (s : WorkflowState) : PyResult WorkflowState :=
  match s.error with
  | some err => pure { s with final_answer := some (errorAnswer err) }
  | none =>
    let results := s.results.getD []
    if results = [] then
      pure { s with final_answer := some noInfoMsg }
    else do
      let t ← c.formatLLM s.user_question (results.take 5) results.length
      pure { s with final_answer := some (pyStrip t) }

/-- The dictionary returned by `answer_question` (lines 364-375). -/
structure AnswerResult where
  answer : String
  question_type : Option String
  entities : List String
  cypher_query : Option String
  results_count : Nat
  raw_results : List PyVal
  error : Option String
deriving DecidableEq

/-- The entry point `WorkflowAgent.answer_question` (lines 338-375): run the five stages
on the initial state and package the final state.  `raw_results` is
`final_state.get("results", [])[:3]`. -/
def answer_question (c : Collab) (question : String) : PyResult AnswerResult := do
  let s1 ← classify_question c (initState question)
  let s2 ← extract_entities c s1
  let s3 ← generate_query c s2
  let s4 := execute_query c s3
  let s5 ← format_answer c s4
  pure
    { answer := s5.final_answer.getD "No answer generated"
      question_type := s5.question_type
      entities := s5.entities.getD []
      cypher_query := s5.cypher_query
      results_count := (s5.results.getD []).length
      raw_results := (s5.results.getD []).take 3
      error := s5.error }

/-! ## Model of the `LifeScienceAgent` execute stage (langgraph_agent.py) -/

/-- The query-store collaborator of `LifeScienceAgent.execute_query`:
`GraphInterface.validate_query` and `GraphInterface.execute_query`. -/
structure LSCollab where
  validate : String → PyResult Bool
  executeQuery : String → PyResult (List PyVal)

/-- The `AgentState` record (langgraph_agent.py lines 46-73). -/
structure LSState where
  user_question : String
  question_type : Option String
  entities : Option (List PyVal)
  cypher_query : Option String
  query_results : Option (List PyVal)
  final_answer : Option String
  error : Option String
deriving DecidableEq

/-- The stage `LifeScienceAgent.execute_query` (langgraph_agent.py lines 379-397):
inside `try`, a falsy `cypher_query` raises `ValueError("No Cypher query
generated")`; then the query is validated and a validation failure (or a
falsy query, re-checked) raises `ValueError("Invalid Cypher query")`;
only a validated query is executed.  Every exception — including ones
raised by `validate_query` or `execute_query` themselves — is caught and
stored as `error` (`str(e)`); `query_results` is written only on
success.  This stage never raises. -/
def LSexecute_query (c : LSCollab) (s : LSState) : LSState :=
  match s.cypher_query with
  | none => { s with error := some "No Cypher query generated" }
  | some q =>
    if q = "" then { s with error := some "No Cypher query generated" }
    else
      match c.validate q with
      | .error e => { s with error := some e.msg }
      | .ok false => { s with error := some "Invalid Cypher query" }
      | .ok true =>
        match c.executeQuery q with
        | .ok rs => { s with query_results := some rs }
        | .error e => { s with error := some e.msg }

/-! ## Model of the `WorkflowEvaluator` (evaluation_metrics/evaluation_metrics.py) -/

/-- Python's true division of the match counter by the example count:
`ZeroDivisionError` when the denominator is `0`. -/
def pyDiv (a b : Nat) : PyResult Rat :=
  if b = 0 then .error ⟨"division by zero"⟩ else .ok ((a : Rat) / (b : Rat))

/-- Model of `WorkflowEvaluator._extract_values_from_results` (lines 22-35): one
pass over the rows; a dict row contributes its scalar (`str`/`int`/
`float`) values normalized, and every element of its list values
normalized (via `str()`); a scalar row contributes itself; anything else
(nested dicts, `None`, top-level lists) is ignored. -/
def extract_values_from_results (results : List PyVal) : Finset String :=
  results.foldl
    (fun values item =>
      match item with
      | .dict kvs =>
        kvs.vals.foldl
          (fun vs v =>
            match v with
            | .str _ => insert (normalizeVal v) vs
            | .int _ => insert (normalizeVal v) vs
            | .floatv _ => insert (normalizeVal v) vs
            | .list elems => elems.elems.foldl (fun a e => insert (normalizeVal e) a) vs
            | _ => vs)
          values
      | .str _ => insert (normalizeVal item) values
      | .int _ => insert (normalizeVal item) values
      | .floatv _ => insert (normalizeVal item) values
      | _ => values)
    ∅

/-- A normalized set comprehension
`{_normalize_string(v) for v in vals}`. -/
def normSetOf (vals : List PyVal) : Finset String :=
  vals.foldl (fun s v => insert (normalizeVal v) s) ∅

/-- The normalized entity-set comprehension
`{_normalize_string(e) for e in entities}` (entities are strings). -/
def normStrSetOf (entities : List String) : Finset String :=
  entities.foldl (fun s e => insert (pyNormalize e) s) ∅

/-- The evaluator's answer check (lines 77-85): the counter is bumped if
both normalized sets are empty, or (`elif`) if they are equal. -/
def answerScore (rawResults : List PyVal) (expectedResults : List PyVal) : Bool :=
  let output_values := extract_values_from_results rawResults
  let expected_values := normSetOf expectedResults
  if expected_values = ∅ ∧ output_values = ∅ then true
  else if output_values = expected_values then true
  else false

/-- One labeled example of the golden dataset (fields read by
`evaluate`, lines 48-79). -/
structure EvalExample where
  question : String
  expected_type : Option String
  expected_entities : List String
  expected_results : List PyVal
  conversation_id : Option String
deriving DecidableEq

/-- The agent driven by the evaluator, as the evaluator sees it:
`answer_question` (assumed to return — the evaluator catches nothing),
the wall-clock duration of each call (an external measurement), and
whether `conversation_memory_enabled` holds together with a
`memory_manager` attribute (line 56). -/
structure EvalAgent where
  answerFn : String → AnswerResult
  durationOf : String → Rat
  memoryEnabled : Bool

/-- One step of the grouping loop (lines 46-51): the key for an example
is its `conversation_id`, or `"single_" + str(len(grouped_dataset))` for
examples lacking one; the example is appended to the key's group, a new
key starting a new group at the end (Python dict insertion order). -/
def addToGroups (acc : List (String × List EvalExample)) (ex : EvalExample) :
    List (String × List EvalExample) :=
  let key := match ex.conversation_id with
    | some c => c
    | none => "single_" ++ toString acc.length
  if acc.any (fun p => p.fst = key) then
    acc.map (fun p => if p.fst = key then (p.fst, p.snd ++ [ex]) else p)
  else acc ++ [(key, [ex])]

/-- The grouped dataset (lines 45-51). -/
def groupByConversation (dataset : List EvalExample) : List (String × List EvalExample) :=
  dataset.foldl addToGroups []

/-- Observable events of an evaluation run: a `memory_manager.clear_history()`
call, or an `answer_question` call for one example. -/
inductive EvalEvent where
  | clear
  | run (question : String)
deriving DecidableEq

/-- Is an event a memory-clear call? -/
def EvalEvent.isClear : EvalEvent → Bool
  | .clear => true
  | .run _ => false

/-- The aggregate report returned by `evaluate` (lines 89-94). -/
structure EvalReport where
  classification_accuracy : Rat
  entity_accuracy : Rat
  answer_accuracy : Rat
  average_query_duration_seconds : Rat
deriving DecidableEq

/-- The mutable loop state of `evaluate`: the three counters, the
duration list, and the trace of collaborator events. -/
structure EvalLoop where
  cls : Nat
  ent : Nat
  ans : Nat
  durs : List Rat
  events : List EvalEvent
deriving DecidableEq

/-- The per-example body of the inner loop (lines 59-85): run the agent,
record the duration, and bump each counter according to its check —
classification by exact equality with `expected_type`, entities by
normalized-set equality, answers by `answerScore`. -/
def scoreExample (ag : EvalAgent) (st : EvalLoop) (ex : EvalExample) : EvalLoop :=
  let output := ag.answerFn ex.question
  { cls := st.cls + (if output.question_type = ex.expected_type then 1 else 0)
    ent := st.ent +
      (if normStrSetOf output.entities = normStrSetOf ex.expected_entities then 1 else 0)
    ans := st.ans + (if answerScore output.raw_results ex.expected_results then 1 else 0)
    durs := st.durs ++ [ag.durationOf ex.question]
    events := st.events ++ [.run ex.question] }

/-- The per-group body of the outer loop (lines 54-85): clear
conversation memory when enabled, then score each example of the group
in order. -/
def runGroup (ag : EvalAgent) (st : EvalLoop) (g : String × List EvalExample) : EvalLoop :=
  let st := if ag.memoryEnabled then { st with events := st.events ++ [.clear] } else st
  g.snd.foldl (scoreExample ag) st

/-- Model of `WorkflowEvaluator.evaluate` (lines 37-94), returning the report (or
the exception the run raises) together with the trace of collaborator
events.  The average duration is guarded against an empty dataset
(line 87) but the three accuracy divisions are not (lines 90-92). -/
def evaluate (ag : EvalAgent) (dataset : List EvalExample) :
    PyResult EvalReport × List EvalEvent :=
  let total := dataset.length
  let grouped := groupByConversation dataset
  let final := grouped.foldl (runGroup ag) ⟨0, 0, 0, [], []⟩
  let avg : Rat := if total > 0 then final.durs.sum / (total : Rat) else 0
  let report : PyResult EvalReport := do
    let clsAcc ← pyDiv final.cls total
    let entAcc ← pyDiv final.ent total
    let ansAcc ← pyDiv final.ans total
    pure ⟨clsAcc, entAcc, ansAcc, avg⟩
  (report, final.events)

/-! ## The spec's reading of answer-value extraction (for claim C6)

The specification describes the extraction as "recursively flattening
lists/dicts".  The following definitions are modelled from those words
(not from the source) so the two readings can be compared. -/

mutual
/-- Modelled from the spec: the normalized scalar values obtained by
recursively flattening nested lists and dicts out of one value. -/
def specFlattenVal : PyVal → List String
  | .str s => [normalizeVal (.str s)]
  | .int n => [normalizeVal (.int n)]
  | .floatv r => [normalizeVal (.floatv r)]
  | .pynone => []
  | .list xs => specFlattenList xs
  | .dict kvs => specFlattenDict kvs

/-- Modelled from the spec: recursive flattening of a list value. -/
def specFlattenList : PyValList → List String
  | .nil => []
  | .cons h t => specFlattenVal h ++ specFlattenList t

/-- Modelled from the spec: recursive flattening of a dict's values. -/
def specFlattenDict : PyValDict → List String
  | .nil => []
  | .cons _ v t => specFlattenVal v ++ specFlattenDict t
end

/-- Modelled from the spec: the normalized set of scalar values
recursively flattened out of the predicted result rows. -/
def specFlattenRows (results : List PyVal) : Finset String :=
  (results.flatMap specFlattenVal).toFinset

/-! ## Concrete collaborator behaviours and data used in witnesses and
counterexamples -/

/-- A sample result row `{"dr.drug_name": "Lisinopril"}`. -/
def rowLisinopril : PyVal := .dict (.cons "dr.drug_name" (.str "Lisinopril") .nil)

/-- A sample result row `{"dr.drug_name": "Enalapril"}`. -/
def rowEnalapril : PyVal := .dict (.cons "dr.drug_name" (.str "Enalapril") .nil)

/-- A sample result row `{"dr.drug_name": "Captopril"}`. -/
def rowCaptopril : PyVal := .dict (.cons "dr.drug_name" (.str "Captopril") .nil)

/-- A sample result row `{"g.gene_name": "GENE_ALPHA"}`. -/
def rowGene : PyVal := .dict (.cons "g.gene_name" (.str "GENE_ALPHA") .nil)

/-- Collaborators that all succeed; the query store returns four rows. -/
def okCollab : Collab :=
  { classify := fun _ => .ok "gene_disease"
    extractAPI := fun _ => .ok "[\"Hypertension\"]"
    parseEntities := fun s => if s = "[\"Hypertension\"]" then some ["Hypertension"] else none
    generate := fun _ _ _ => .ok "MATCH (d:Drug) RETURN dr.drug_name LIMIT 10"
    executeQuery := fun _ => .ok [rowLisinopril, rowEnalapril, rowCaptopril, rowGene]
    formatLLM := fun _ _ _ => .ok "Here is what I found." }

/-- Same collaborators, but the query store raises. -/
def failStoreCollab : Collab :=
  { okCollab with executeQuery := fun _ => .error ⟨"boom"⟩ }

/-- Same collaborators, but the query store returns no rows. -/
def emptyStoreCollab : Collab :=
  { okCollab with executeQuery := fun _ => .ok [] }

/-- Same collaborators, but the classifier LLM call raises. -/
def failClassifierCollab : Collab :=
  { okCollab with classify := fun _ => .error ⟨"API connection error"⟩ }

/-- A query store for the `LifeScienceAgent` stage that validates and
executes successfully. -/
def okLSCollab : LSCollab :=
  { validate := fun _ => .ok true
    executeQuery := fun _ => .ok [rowGene] }

/-- The `AgentState` at the entry of the `LifeScienceAgent` execute
stage when no query was generated. -/
def lsStateNoQuery : LSState :=
  { user_question := "What genes are associated with Hypertension?"
    question_type := some "gene_disease"
    entities := some []
    cypher_query := none
    query_results := none
    final_answer := none
    error := none }

/-- A fixed agent output used when driving the evaluator embedding. -/
def stubAnswer : AnswerResult :=
  { answer := "stub"
    question_type := some "general"
    entities := []
    cypher_query := none
    results_count := 0
    raw_results := []
    error := none }

/-- An evaluator agent with conversation memory enabled. -/
def memAgent : EvalAgent :=
  { answerFn := fun _ => stubAnswer
    durationOf := fun _ => 0
    memoryEnabled := true }

/-- An example whose explicit `conversation_id` is the string
`"single_1"` — the shape of the keys generated for id-less examples. -/
def exPlanted : EvalExample :=
  { question := "q1"
    expected_type := some "general"
    expected_entities := []
    expected_results := []
    conversation_id := some "single_1" }

/-- An example lacking a `conversation_id`. -/
def exNoConv : EvalExample :=
  { question := "q2"
    expected_type := some "general"
    expected_entities := []
    expected_results := []
    conversation_id := none }

/-- An example carrying the explicit `conversation_id` `"convA"`. -/
def exConvA : EvalExample :=
  { question := "q3"
    expected_type := some "general"
    expected_entities := []
    expected_results := []
    conversation_id := some "convA" }

/-- A second example in conversation `"convA"`. -/
def exConvA2 : EvalExample :=
  { question := "q4"
    expected_type := some "general"
    expected_entities := []
    expected_results := []
    conversation_id := some "convA" }

/-- A nested row `{"k": {"n": "a"}}` whose inner dict the source's
one-level extraction skips. -/
def rowNested : PyVal := .dict (.cons "k" (.dict (.cons "n" (.str "a") .nil)) .nil)

/-- The question driven through the pipeline in concrete runs. -/
def wQuestion : String := "What genes are associated with Hypertension?"

/-- The initial state of the concrete run. -/
def wState0 : WorkflowState := initState wQuestion

/-- The concrete run's state after the classify stage. -/
def wState1 : WorkflowState := { wState0 with question_type := some "gene_disease" }

/-- The concrete run's state after the extract stage. -/
def wState2 : WorkflowState := { wState1 with entities := some ["Hypertension"] }

/-- The concrete run's state after the generate stage. -/
def wState3 : WorkflowState :=
  { wState2 with cypher_query := some "MATCH (d:Drug) RETURN dr.drug_name LIMIT 10" }

/-- The concrete run's state after the format stage (under `okCollab`). -/
def wState5 : WorkflowState :=
  { wState3 with
      results := some [rowLisinopril, rowEnalapril, rowCaptopril, rowGene]
      final_answer := some "Here is what I found." }

/-! ## Helper lemmas -/

/-- ASCII lowering is idempotent. -/
theorem toLower_toLower (c : Char) : c.toLower.toLower = c.toLower := by
  have key : ∀ n : Nat, 65 ≤ n → n ≤ 90 →
      Char.toLower (Char.ofNat (n + 32)) = Char.ofNat (n + 32) := by
    intro n h1 h2
    interval_cases n <;> decide
  by_cases h : 65 ≤ c.toNat ∧ c.toNat ≤ 90
  · have h1 : c.toLower = Char.ofNat (c.toNat + 32) := by
      unfold Char.toLower
      rw [if_pos ⟨h.1, h.2⟩]
    rw [h1]
    exact key c.toNat h.1 h.2
  · have h1 : c.toLower = c := by
      unfold Char.toLower
      rw [if_neg h]
    simp only [h1]

/-- Stripping only removes characters. -/
theorem mem_of_mem_stripChars {a : Char} {cs : List Char} (h : a ∈ stripChars cs) :
    a ∈ cs := by
  unfold stripChars at h
  rw [List.mem_reverse] at h
  have h2 : a ∈ (cs.dropWhile pyIsSpace).reverse := (List.dropWhile_sublist _).subset h
  rw [List.mem_reverse] at h2
  exact (List.dropWhile_sublist _).subset h2

/-- Every character of a normalized string is lowering-fixed and is
neither an underscore nor a hyphen. -/
theorem pyNormalize_char_spec {s : String} {z : Char} (hz : z ∈ (pyNormalize s).data) :
    z.toLower = z ∧ z ≠ '_' ∧ z ≠ '-' := by
  unfold pyNormalize at hz
  simp only [List.mem_map] at hz
  obtain ⟨z1, ⟨w, hw, rfl⟩, rfl⟩ := hz
  have hwmem : w ∈ s.data.map Char.toLower := mem_of_mem_stripChars hw
  simp only [List.mem_map] at hwmem
  obtain ⟨u, _, rfl⟩ := hwmem
  unfold replaceChar
  by_cases h1 : u.toLower = '_'
  · rw [if_pos h1]
    by_cases h2 : (' ' : Char) = '-'
    · exact absurd h2 (by decide)
    · rw [if_neg h2]
      refine ⟨by decide, by decide, by decide⟩
  · rw [if_neg h1]
    by_cases h2 : u.toLower = '-'
    · rw [if_pos h2]
      refine ⟨by decide, by decide, by decide⟩
    · rw [if_neg h2]
      exact ⟨toLower_toLower u, h1, h2⟩

/-- A map that fixes every element of a list is the identity on it. -/
theorem map_fixed_id {f : Char → Char} {l : List Char} (h : ∀ a ∈ l, f a = a) :
    l.map f = l := by
  induction l with
  | nil => rfl
  | cons a t ih =>
    simp only [List.map_cons, h a (List.mem_cons_self a t)]
    rw [ih fun b hb => h b (List.mem_cons_of_mem a hb)]

/-! ## Claim C7 — idempotence of the evaluator's normalization -/

/-- Claim C7, counterexample: normalization is not idempotent.  On
`"_a"` the first pass turns the leading underscore into a space
(`" a"`), and a second pass strips that space (`"a"`), so
`normalize(normalize("_a")) ≠ normalize("_a")`. -/
theorem c7_counterexample : pyNormalize (pyNormalize "_a") ≠ pyNormalize "_a" := by
  decide

/-- Claim C7 as amended: a second application of the evaluator's
`_normalize_string` only strips the string again, i.e.
`normalize(normalize(x)) = strip(normalize(x))` for every string; the
two sides differ exactly when replacing `_`/`-` by spaces exposed new
leading or trailing whitespace (otherwise normalization is idempotent). -/
theorem c7_normalize_normalize (s : String) :
    pyNormalize (pyNormalize s) = pyStrip (pyNormalize s) := by
  have hlow : (pyNormalize s).data.map Char.toLower = (pyNormalize s).data :=
    map_fixed_id fun a ha => (pyNormalize_char_spec ha).1
  have hr1 : ∀ a ∈ stripChars (pyNormalize s).data, replaceChar '_' ' ' a = a := by
    intro a ha
    have := (pyNormalize_char_spec (mem_of_mem_stripChars ha)).2.1
    unfold replaceChar
    rw [if_neg this]
  have hr2 : ∀ a ∈ stripChars (pyNormalize s).data, replaceChar '-' ' ' a = a := by
    intro a ha
    have := (pyNormalize_char_spec (mem_of_mem_stripChars ha)).2.2
    unfold replaceChar
    rw [if_neg this]
  show (⟨((stripChars ((pyNormalize s).data.map Char.toLower)).map
      (replaceChar '_' ' ')).map (replaceChar '-' ' ')⟩ : String) = _
  rw [hlow, map_fixed_id hr1, map_fixed_id hr2]
  rfl

/-! ## Claim C2 — evaluating the empty dataset -/

/-- Claim C2 (code bug): on the empty dataset `evaluate` does **not**
return an all-zero report; the average duration is guarded
(`if total_questions > 0 else 0`, line 87) but the three accuracy
divisions (lines 90-92) divide the match counters by
`total_questions = 0`, so the run raises `ZeroDivisionError` — for every
agent. -/
theorem c2_empty_dataset_raises (ag : EvalAgent) :
    (evaluate ag []).fst = .error ⟨"division by zero"⟩ := rfl

/-- Inversion for the classify stage: a successful stage is exactly an
LLM success whose stripped text lands in `question_type`. -/
theorem classify_question_ok {c : Collab} {s s' : WorkflowState}
    (h : classify_question c s = .ok s') :
    ∃ t, c.classify s.user_question = .ok t ∧
      s' = { s with question_type := some (pyStrip t) } := by
  unfold classify_question at h
  cases hc : c.classify s.user_question with
  | error e => rw [hc] at h; simp [Bind.bind, Except.bind] at h
  | ok t =>
    rw [hc] at h
    simp only [Bind.bind, Except.bind, Pure.pure, Except.pure, Except.ok.injEq] at h
    exact ⟨t, rfl, h.symm⟩

/-- Inversion for the extract stage: a successful stage is exactly an
LLM success; the stored entity list is the parse result or `[]`. -/
theorem extract_entities_ok {c : Collab} {s s' : WorkflowState}
    (h : extract_entities c s = .ok s') :
    ∃ t, c.extractAPI s.user_question = .ok t ∧
      s' = { s with entities := some ((c.parseEntities (pyStrip t)).getD []) } := by
  unfold extract_entities at h
  cases hc : c.extractAPI s.user_question with
  | error e => rw [hc] at h; simp [Bind.bind, Except.bind] at h
  | ok t =>
    rw [hc] at h
    simp only [Bind.bind, Except.bind] at h
    cases hp : c.parseEntities (pyStrip t) with
    | none =>
      rw [hp] at h
      simp only [Pure.pure, Except.pure, Except.ok.injEq] at h
      exact ⟨t, rfl, by rw [hp]; exact h.symm⟩
    | some es =>
      rw [hp] at h
      simp only [Pure.pure, Except.pure, Except.ok.injEq] at h
      exact ⟨t, rfl, by rw [hp]; exact h.symm⟩

/-- Inversion for the generate stage: a successful stage is exactly an
LLM success whose cleaned text lands in `cypher_query`. -/
theorem generate_query_ok {c : Collab} {s s' : WorkflowState}
    (h : generate_query c s = .ok s') :
    ∃ t, c.generate s.user_question (s.question_type.getD "general") (s.entities.getD []) = .ok t ∧
      s' = { s with cypher_query := some (cleanQuery t) } := by
  unfold generate_query at h
  cases hc : c.generate s.user_question (s.question_type.getD "general") (s.entities.getD []) with
  | error e => rw [hc] at h; simp [Bind.bind, Except.bind] at h
  | ok t =>
    rw [hc] at h
    simp only [Bind.bind, Except.bind, Pure.pure, Except.pure, Except.ok.injEq] at h
    exact ⟨t, rfl, h.symm⟩

/-- Inversion for the format stage: a success is the error path, the
empty-rows path, or a formatter success. -/
theorem format_answer_ok {c : Collab} {s s' : WorkflowState}
    (h : format_answer c s = .ok s') :
    (∃ err, s.error = some err ∧ s' = { s with final_answer := some (errorAnswer err) }) ∨
    (s.error = none ∧ s.results.getD [] = [] ∧
      s' = { s with final_answer := some noInfoMsg }) ∨
    (∃ t, s.error = none ∧ s.results.getD [] ≠ [] ∧
      c.formatLLM s.user_question ((s.results.getD []).take 5) (s.results.getD []).length = .ok t ∧
      s' = { s with final_answer := some (pyStrip t) }) := by
  unfold format_answer at h
  cases herr : s.error with
  | some err =>
    rw [herr] at h
    simp only [Pure.pure, Except.pure, Except.ok.injEq] at h
    exact Or.inl ⟨err, rfl, h.symm⟩
  | none =>
    rw [herr] at h
    by_cases hres : s.results.getD [] = []
    · rw [if_pos hres] at h
      simp only [Pure.pure, Except.pure, Except.ok.injEq] at h
      exact Or.inr (Or.inl ⟨rfl, hres, h.symm⟩)
    · rw [if_neg hres] at h
      cases hf : c.formatLLM s.user_question ((s.results.getD []).take 5) (s.results.getD []).length with
      | error e => rw [hf] at h; simp [Bind.bind, Except.bind] at h
      | ok t =>
        rw [hf] at h
        simp only [Bind.bind, Except.bind, Pure.pure, Except.pure, Except.ok.injEq] at h
        exact Or.inr (Or.inr ⟨t, rfl, hres, rfl, h.symm⟩)

/-- Forward computation of the classify stage from an LLM success. -/
theorem classify_question_eq (c : Collab) (s : WorkflowState) {t : String}
    (h : c.classify s.user_question = .ok t) :
    classify_question c s = .ok { s with question_type := some (pyStrip t) } := by
  unfold classify_question
  rw [h]
  rfl

/-- Forward computation of the extract stage from an LLM success. -/
theorem extract_entities_eq (c : Collab) (s : WorkflowState) {t : String}
    (h : c.extractAPI s.user_question = .ok t) :
    extract_entities c s = .ok { s with entities := some ((c.parseEntities (pyStrip t)).getD []) } := by
  unfold extract_entities
  rw [h]
  simp only [Bind.bind, Except.bind]
  cases hp : c.parseEntities (pyStrip t) with
  | none => rfl
  | some es => rfl

/-- Forward computation of the generate stage from an LLM success. -/
theorem generate_query_eq (c : Collab) (s : WorkflowState) {t : String}
    (h : c.generate s.user_question (s.question_type.getD "general") (s.entities.getD []) = .ok t) :
    generate_query c s = .ok { s with cypher_query := some (cleanQuery t) } := by
  unfold generate_query
  rw [h]
  rfl

/-- The format stage always succeeds when the formatter LLM does. -/
theorem format_answer_total (c : Collab) (s : WorkflowState)
    (hf : ∀ a r n, ∃ t, c.formatLLM a r n = .ok t) :
    ∃ s', format_answer c s = .ok s' := by
  unfold format_answer
  cases herr : s.error with
  | some err => exact ⟨_, rfl⟩
  | none =>
    by_cases hres : s.results.getD [] = []
    · rw [if_pos hres]
      exact ⟨_, rfl⟩
    · rw [if_neg hres]
      obtain ⟨t, ht⟩ := hf s.user_question ((s.results.getD []).take 5) (s.results.getD []).length
      rw [ht]
      exact ⟨_, rfl⟩

/-- The execute stage on a present query, with the match unfolded. -/
theorem execute_query_some (c : Collab) (s : WorkflowState) {q : String}
    (hs : s.cypher_query = some q) :
    execute_query c s =
      if q ≠ "" then
        match c.executeQuery q with
        | .ok rs => { s with results := some rs }
        | .error e => { s with error := some ("Query failed: " ++ e.msg), results := some [] }
      else { s with results := some [] } := by
  unfold execute_query
  rw [hs]

/-- The execute stage when the store raises on a truthy query. -/
theorem execute_query_fail (c : Collab) (s : WorkflowState) {q : String} {e : PyErr}
    (hs : s.cypher_query = some q) (hq : q ≠ "") (he : c.executeQuery q = .error e) :
    execute_query c s = { s with error := some ("Query failed: " ++ e.msg), results := some [] } := by
  rw [execute_query_some c s hs, if_pos hq, he]

/-- The execute stage when the store returns rows on a truthy query. -/
theorem execute_query_rows (c : Collab) (s : WorkflowState) {q : String} {rs : List PyVal}
    (hs : s.cypher_query = some q) (hq : q ≠ "") (he : c.executeQuery q = .ok rs) :
    execute_query c s = { s with results := some rs } := by
  rw [execute_query_some c s hs, if_pos hq, he]

/-- The format stage on the error path. -/
theorem format_answer_error (c : Collab) (s : WorkflowState) {err : String}
    (hs : s.error = some err) :
    format_answer c s = .ok { s with final_answer := some (errorAnswer err) } := by
  unfold format_answer
  rw [hs]
  rfl

/-- The format stage on the empty-rows path. -/
theorem format_answer_empty (c : Collab) (s : WorkflowState)
    (hs : s.error = none) (hr : s.results.getD [] = []) :
    format_answer c s = .ok { s with final_answer := some noInfoMsg } := by
  unfold format_answer
  rw [hs]
  simp only [hr, if_pos rfl]
  rfl

/-- The format stage on the formatter path. -/
theorem format_answer_success (c : Collab) (s : WorkflowState) {t : String}
    (hs : s.error = none) (hr : s.results.getD [] ≠ [])
    (hf : c.formatLLM s.user_question ((s.results.getD []).take 5) (s.results.getD []).length = .ok t) :
    format_answer c s = .ok { s with final_answer := some (pyStrip t) } := by
  unfold format_answer
  rw [hs]
  simp only [if_neg hr]
  rw [hf]
  rfl

/-- The execute stage writes only `results` and `error`. -/
theorem execute_query_frame (c : Collab) (s : WorkflowState) :
    (execute_query c s).user_question = s.user_question ∧
    (execute_query c s).question_type = s.question_type ∧
    (execute_query c s).entities = s.entities ∧
    (execute_query c s).cypher_query = s.cypher_query ∧
    (execute_query c s).final_answer = s.final_answer := by
  unfold execute_query
  cases hq : s.cypher_query with
  | none => exact ⟨rfl, rfl, rfl, rfl, rfl⟩
  | some q =>
    by_cases h : q ≠ ""
    · simp only [if_pos h]
      cases c.executeQuery q <;> simp
    · simp only [if_neg h]
      simp

/-! ## Claim C1 — containment of collaborator errors -/

/-- Claim C1, counterexample: an exception raised by the Classifier
collaborator is **not** caught — `classify_question` has no `try` around
the Anthropic call, so `answer_question` raises it past the public
boundary instead of converting it into a textual answer. -/
theorem c1_counterexample :
    answer_question failClassifierCollab wQuestion = .error ⟨"API connection error"⟩ := rfl

/-- Claim C1 as amended: only the query-store errors of the execute
stage and entity-list parse failures are caught inside the pipeline;
exceptions raised by the Classifier, the EntityExtractor API call, the
QueryGenerator, or the ResponseFormatter escape `answer_question`.
Whenever those four LLM calls return normally, `answer_question` returns
a result for every question, every query-store behaviour (including
raising) and every parser behaviour. -/
theorem c1_contained_errors (c : Collab) (q : String)
    (hcl : ∀ x, ∃ t, c.classify x = .ok t)
    (hex : ∀ x, ∃ t, c.extractAPI x = .ok t)
    (hgen : ∀ a b d, ∃ t, c.generate a b d = .ok t)
    (hfmt : ∀ a r n, ∃ t, c.formatLLM a r n = .ok t) :
    ∃ r, answer_question c q = .ok r := by
  obtain ⟨t1, h1⟩ := hcl q
  obtain ⟨t2, h2⟩ := hex q
  unfold answer_question
  rw [classify_question_eq c (initState q) h1]
  simp only [Bind.bind, Except.bind]
  rw [extract_entities_eq c _ h2]
  simp only [Bind.bind, Except.bind]
  obtain ⟨t3, h3⟩ := hgen q (pyStrip t1) ((c.parseEntities (pyStrip t2)).getD [])
  rw [generate_query_eq c _ h3]
  simp only [Bind.bind, Except.bind]
  obtain ⟨s5, h5⟩ := format_answer_total c
    (execute_query c { initState q with
        question_type := some (pyStrip t1)
        entities := some ((c.parseEntities (pyStrip t2)).getD [])
        cypher_query := some (cleanQuery t3) }) hfmt
  rw [h5]
  exact ⟨_, rfl⟩

/-- Witness for C1: under `okCollab` (whose query store raises nothing
here, but is unconstrained in the theorem) the hypotheses hold and
`answer_question` returns a result. -/
theorem c1_contained_errors_witness :
    ∃ r, answer_question okCollab wQuestion = .ok r :=
  c1_contained_errors okCollab wQuestion
    (fun _ => ⟨_, rfl⟩) (fun _ => ⟨_, rfl⟩)
    (fun _ _ _ => ⟨_, rfl⟩) (fun _ _ _ => ⟨_, rfl⟩)

/-! ## Claim C3 — runs whose execute stage fails -/

/-- Claim C3: in every run whose execute stage fails (the store raises
on a truthy generated query), the returned result's `answer` is exactly
the error template around the failure description `"Query failed: " ++
str(e)` (so it contains the description), `error` is non-null, and the
row count is `0` with an empty `raw_results`. -/
theorem c3_query_failure_result (c : Collab) (q t1 t2 t3 : String) (e : PyErr)
    (h1 : c.classify q = .ok t1)
    (h2 : c.extractAPI q = .ok t2)
    (h3 : c.generate q (pyStrip t1) ((c.parseEntities (pyStrip t2)).getD []) = .ok t3)
    (hq : cleanQuery t3 ≠ "")
    (he : c.executeQuery (cleanQuery t3) = .error e) :
    ∃ r, answer_question c q = .ok r ∧
      r.error = some ("Query failed: " ++ e.msg) ∧
      r.answer = errorAnswer ("Query failed: " ++ e.msg) ∧
      r.results_count = 0 ∧ r.raw_results = [] := by
  unfold answer_question
  rw [classify_question_eq c (initState q) h1]
  simp only [Bind.bind, Except.bind]
  rw [extract_entities_eq c _ h2]
  simp only [Bind.bind, Except.bind]
  rw [generate_query_eq c _ h3]
  simp only [Bind.bind, Except.bind]
  rw [execute_query_fail c _ rfl hq he]
  rw [format_answer_error c _ rfl]
  simp only [Bind.bind, Except.bind]
  exact ⟨_, rfl, rfl, rfl, rfl, rfl⟩

/-- Witness for C3: a concrete run in which the store raises `"boom"`. -/
theorem c3_query_failure_result_witness :
    ∃ r, answer_question failStoreCollab wQuestion = .ok r ∧
      r.error = some ("Query failed: " ++ "boom") ∧
      r.answer = errorAnswer ("Query failed: " ++ "boom") ∧
      r.results_count = 0 ∧ r.raw_results = [] :=
  c3_query_failure_result failStoreCollab wQuestion "gene_disease" "[\"Hypertension\"]"
    "MATCH (d:Drug) RETURN dr.drug_name LIMIT 10" ⟨"boom"⟩
    rfl rfl rfl (by decide) rfl

/-! ## Claim C4 — empty row set short-circuits the formatter -/

/-- Claim C4: in every run whose executed query returns an empty row set
with no failure, the answer is the fixed "no information found" message
and the ResponseFormatter is never invoked — rendered functionally: the
result of `answer_question` is identical for every formatter
implementation. -/
theorem c4_empty_rows_no_formatter (c : Collab) (q t1 t2 t3 : String)
    (h1 : c.classify q = .ok t1)
    (h2 : c.extractAPI q = .ok t2)
    (h3 : c.generate q (pyStrip t1) ((c.parseEntities (pyStrip t2)).getD []) = .ok t3)
    (hq : cleanQuery t3 ≠ "")
    (he : c.executeQuery (cleanQuery t3) = .ok []) :
    ∃ r, answer_question c q = .ok r ∧ r.answer = noInfoMsg ∧ r.error = none ∧
      (∀ f, answer_question { c with formatLLM := f } q = answer_question c q) := by
  have main : ∀ c' : Collab, c'.classify = c.classify → c'.extractAPI = c.extractAPI →
      c'.parseEntities = c.parseEntities → c'.generate = c.generate →
      c'.executeQuery = c.executeQuery →
      answer_question c' q = .ok
        { answer := noInfoMsg
          question_type := some (pyStrip t1)
          entities := (c.parseEntities (pyStrip t2)).getD []
          cypher_query := some (cleanQuery t3)
          results_count := 0
          raw_results := []
          error := none } := by
    intro c' hc he2 hp hg hx
    unfold answer_question
    rw [classify_question_eq c' (initState q) (by rw [hc]; exact h1)]
    simp only [Bind.bind, Except.bind]
    rw [extract_entities_eq c' _ (by rw [he2]; exact h2)]
    simp only [Bind.bind, Except.bind, hp]
    rw [generate_query_eq c' _ (by rw [hg]; exact h3)]
    simp only [Bind.bind, Except.bind]
    rw [execute_query_rows c' _ rfl hq (by rw [hx]; exact he)]
    rfl
  refine ⟨_, main c rfl rfl rfl rfl rfl, rfl, rfl, ?_⟩
  intro f
  rw [main { c with formatLLM := f } rfl rfl rfl rfl rfl, main c rfl rfl rfl rfl rfl]

/-- Witness for C4: a concrete run whose store returns no rows. -/
theorem c4_empty_rows_no_formatter_witness :
    ∃ r, answer_question emptyStoreCollab wQuestion = .ok r ∧ r.answer = noInfoMsg ∧
      r.error = none ∧
      (∀ f, answer_question { emptyStoreCollab with formatLLM := f } wQuestion =
        answer_question emptyStoreCollab wQuestion) :=
  c4_empty_rows_no_formatter emptyStoreCollab wQuestion "gene_disease" "[\"Hypertension\"]"
    "MATCH (d:Drug) RETURN dr.drug_name LIMIT 10"
    rfl rfl rfl (by decide) rfl

/-! ## Claim C5 — the execute stage's contract -/

/-- Claim C5, counterexample: in the `WorkflowAgent` execute stage
(workflow_agent.py lines 262-284) a missing query is **not** treated as
a failure — the stage stores an empty row set and leaves `error` unset
(and no validation is consulted anywhere in that stage, its collaborator
record not even containing a `validate_query` call). -/
theorem c5_counterexample :
    (execute_query okCollab (initState wQuestion)).error = none ∧
    (execute_query okCollab (initState wQuestion)).results = some [] := ⟨rfl, rfl⟩

/-- Claim C5 as amended: the claimed contract is the one of the
`LifeScienceAgent` execute stage (langgraph_agent.py lines 379-397): a
missing or empty query populates `failure` with "No Cypher query
generated"; otherwise the store validates the query and a negative
validation populates "Invalid Cypher query"; an exception from
validation or execution populates `failure` with its message; rows are
stored exactly when validation succeeded and execution returned them,
and the row set stays empty in every failure case; the stage never
raises (it is a total function).  The `WorkflowAgent` variant instead
performs no validation and turns a missing query into an empty row set
without any failure (see the counterexample). -/
theorem c5_execute_stage_contract (c : LSCollab) (s : LSState)
    (hres : s.query_results = none) :
    ((s.cypher_query = none ∨ s.cypher_query = some "") →
      (LSexecute_query c s).error = some "No Cypher query generated" ∧
      (LSexecute_query c s).query_results = none) ∧
    (∀ q, s.cypher_query = some q → q ≠ "" → c.validate q = .ok false →
      (LSexecute_query c s).error = some "Invalid Cypher query" ∧
      (LSexecute_query c s).query_results = none) ∧
    (∀ q e, s.cypher_query = some q → q ≠ "" → c.validate q = .error e →
      (LSexecute_query c s).error = some e.msg ∧
      (LSexecute_query c s).query_results = none) ∧
    (∀ q e, s.cypher_query = some q → q ≠ "" → c.validate q = .ok true →
      c.executeQuery q = .error e →
      (LSexecute_query c s).error = some e.msg ∧
      (LSexecute_query c s).query_results = none) ∧
    (∀ rs, (LSexecute_query c s).query_results = some rs →
      ∃ q, s.cypher_query = some q ∧ q ≠ "" ∧ c.validate q = .ok true ∧
        c.executeQuery q = .ok rs ∧ (LSexecute_query c s).error = s.error) := by
  unfold LSexecute_query
  cases hcq : s.cypher_query with
  | none =>
    refine ⟨fun _ => ⟨rfl, hres⟩, ?_, ?_, ?_, ?_⟩
    · intro q hq; simp at hq
    · intro q e hq; simp at hq
    · intro q e hq; simp at hq
    · intro rs hrs; rw [hres] at hrs; simp at hrs
  | some q =>
    by_cases hqe : q = ""
    · subst hqe
      simp only [if_pos rfl]
      refine ⟨fun _ => ⟨rfl, hres⟩, ?_, ?_, ?_, ?_⟩
      · intro q' hq' hne _; rw [Option.some.injEq] at hq'; exact absurd hq'.symm hne
      · intro q' e hq' hne _; rw [Option.some.injEq] at hq'; exact absurd hq'.symm hne
      · intro q' e hq' hne _ _; rw [Option.some.injEq] at hq'; exact absurd hq'.symm hne
      · intro rs hrs; rw [hres] at hrs; simp at hrs
    · simp only [if_neg hqe]
      cases hv : c.validate q with
      | error e =>
        refine ⟨?_, ?_, ?_, ?_, ?_⟩
        · rintro (h | h); · simp at h
          · rw [Option.some.injEq] at h; exact absurd h hqe
        · intro q' hq' hne hvf; rw [Option.some.injEq] at hq'; subst hq'
          rw [hv] at hvf; simp at hvf
        · intro q' e' hq' hne hve; rw [Option.some.injEq] at hq'; subst hq'
          rw [hv] at hve; rw [Except.error.injEq] at hve; subst hve
          exact ⟨rfl, hres⟩
        · intro q' e' hq' hne hvt; rw [Option.some.injEq] at hq'; subst hq'
          rw [hv] at hvt; simp at hvt
        · intro rs hrs; rw [hres] at hrs; simp at hrs
      | ok b =>
        cases b with
        | false =>
          refine ⟨?_, ?_, ?_, ?_, ?_⟩
          · rintro (h | h); · simp at h
            · rw [Option.some.injEq] at h; exact absurd h hqe
          · intro q' hq' hne hvf; rw [Option.some.injEq] at hq'; subst hq'
            exact ⟨rfl, hres⟩
          · intro q' e' hq' hne hve; rw [Option.some.injEq] at hq'; subst hq'
            rw [hv] at hve; simp at hve
          · intro q' e' hq' hne hvt _; rw [Option.some.injEq] at hq'; subst hq'
            rw [hv] at hvt; simp at hvt
          · intro rs hrs; rw [hres] at hrs; simp at hrs
        | true =>
          cases hx : c.executeQuery q with
          | error e =>
            refine ⟨?_, ?_, ?_, ?_, ?_⟩
            · rintro (h | h); · simp at h
              · rw [Option.some.injEq] at h; exact absurd h hqe
            · intro q' hq' hne hvf; rw [Option.some.injEq] at hq'; subst hq'
              rw [hv] at hvf; simp at hvf
            · intro q' e' hq' hne hve; rw [Option.some.injEq] at hq'; subst hq'
              rw [hv] at hve; simp at hve
            · intro q' e' hq' hne _ hxe; rw [Option.some.injEq] at hq'; subst hq'
              rw [hx] at hxe; rw [Except.error.injEq] at hxe; subst hxe
              exact ⟨rfl, hres⟩
            · intro rs hrs; rw [hres] at hrs; simp at hrs
          | ok rs0 =>
            refine ⟨?_, ?_, ?_, ?_, ?_⟩
            · rintro (h | h); · simp at h
              · rw [Option.some.injEq] at h; exact absurd h hqe
            · intro q' hq' hne hvf; rw [Option.some.injEq] at hq'; subst hq'
              rw [hv] at hvf; simp at hvf
            · intro q' e' hq' hne hve; rw [Option.some.injEq] at hq'; subst hq'
              rw [hv] at hve; simp at hve
            · intro q' e' hq' hne _ hxe; rw [Option.some.injEq] at hq'; subst hq'
              rw [hx] at hxe; simp at hxe
            · intro rs hrs; rw [Option.some.injEq] at hrs; subst hrs
              exact ⟨q, rfl, hqe, hv, hx, rfl⟩

/-- Witness for C5: the contract instantiated on a concrete entry state
(no rows yet, no query generated) and a concrete store. -/
theorem c5_execute_stage_contract_witness :
    ((lsStateNoQuery.cypher_query = none ∨ lsStateNoQuery.cypher_query = some "") →
      (LSexecute_query okLSCollab lsStateNoQuery).error = some "No Cypher query generated" ∧
      (LSexecute_query okLSCollab lsStateNoQuery).query_results = none) ∧
    (∀ q, lsStateNoQuery.cypher_query = some q → q ≠ "" →
      okLSCollab.validate q = .ok false →
      (LSexecute_query okLSCollab lsStateNoQuery).error = some "Invalid Cypher query" ∧
      (LSexecute_query okLSCollab lsStateNoQuery).query_results = none) ∧
    (∀ q e, lsStateNoQuery.cypher_query = some q → q ≠ "" →
      okLSCollab.validate q = .error e →
      (LSexecute_query okLSCollab lsStateNoQuery).error = some e.msg ∧
      (LSexecute_query okLSCollab lsStateNoQuery).query_results = none) ∧
    (∀ q e, lsStateNoQuery.cypher_query = some q → q ≠ "" →
      okLSCollab.validate q = .ok true →
      okLSCollab.executeQuery q = .error e →
      (LSexecute_query okLSCollab lsStateNoQuery).error = some e.msg ∧
      (LSexecute_query okLSCollab lsStateNoQuery).query_results = none) ∧
    (∀ rs, (LSexecute_query okLSCollab lsStateNoQuery).query_results = some rs →
      ∃ q, lsStateNoQuery.cypher_query = some q ∧ q ≠ "" ∧
        okLSCollab.validate q = .ok true ∧
        okLSCollab.executeQuery q = .ok rs ∧
        (LSexecute_query okLSCollab lsStateNoQuery).error = lsStateNoQuery.error) :=
  c5_execute_stage_contract okLSCollab lsStateNoQuery rfl

/-! ## Claim C8 — write-once pipeline state -/

/-- Claim C8: along every successful run of the five stages, each stage
writes only its own field(s) — classify only `question_type`, extract
only `entities`, generate only `cypher_query`, execute only
`results`/`error`, format only `final_answer` — no stage mutates a field
written by an earlier stage, and in particular `user_question` is never
changed after the state is created. -/
theorem c8_write_once_state (c : Collab) (s0 s1 s2 s3 s5 : WorkflowState)
    (h1 : classify_question c s0 = .ok s1)
    (h2 : extract_entities c s1 = .ok s2)
    (h3 : generate_query c s2 = .ok s3)
    (h5 : format_answer c (execute_query c s3) = .ok s5) :
    (s1.user_question = s0.user_question ∧ s1.entities = s0.entities ∧
     s1.cypher_query = s0.cypher_query ∧ s1.results = s0.results ∧
     s1.final_answer = s0.final_answer ∧ s1.error = s0.error) ∧
    (s2.user_question = s1.user_question ∧ s2.question_type = s1.question_type ∧
     s2.cypher_query = s1.cypher_query ∧ s2.results = s1.results ∧
     s2.final_answer = s1.final_answer ∧ s2.error = s1.error) ∧
    (s3.user_question = s2.user_question ∧ s3.question_type = s2.question_type ∧
     s3.entities = s2.entities ∧ s3.results = s2.results ∧
     s3.final_answer = s2.final_answer ∧ s3.error = s2.error) ∧
    ((execute_query c s3).user_question = s3.user_question ∧
     (execute_query c s3).question_type = s3.question_type ∧
     (execute_query c s3).entities = s3.entities ∧
     (execute_query c s3).cypher_query = s3.cypher_query ∧
     (execute_query c s3).final_answer = s3.final_answer) ∧
    (s5.user_question = (execute_query c s3).user_question ∧
     s5.question_type = (execute_query c s3).question_type ∧
     s5.entities = (execute_query c s3).entities ∧
     s5.cypher_query = (execute_query c s3).cypher_query ∧
     s5.results = (execute_query c s3).results ∧
     s5.error = (execute_query c s3).error) ∧
    s5.user_question = s0.user_question := by
  obtain ⟨t1, hc1, rfl⟩ := classify_question_ok h1
  obtain ⟨t2, hc2, rfl⟩ := extract_entities_ok h2
  obtain ⟨t3, hc3, rfl⟩ := generate_query_ok h3
  have hexec := execute_query_frame c
    { { { s0 with question_type := some (pyStrip t1) } with
          entities := some ((c.parseEntities (pyStrip t2)).getD []) } with
        cypher_query := some (cleanQuery t3) }
  rcases format_answer_ok h5 with ⟨err, herr, rfl⟩ | ⟨herr, hres, rfl⟩ | ⟨t, herr, hres, hfmt, rfl⟩ <;>
    refine ⟨⟨rfl, rfl, rfl, rfl, rfl, rfl⟩, ⟨rfl, rfl, rfl, rfl, rfl, rfl⟩,
      ⟨rfl, rfl, rfl, rfl, rfl, rfl⟩, hexec, ⟨rfl, rfl, rfl, rfl, rfl, rfl⟩, ?_⟩ <;>
    simpa using hexec.1

/-- Witness for C8: the write-once conclusion on the concrete run of
`okCollab` through the states `wState0 … wState5`. -/
theorem c8_write_once_state_witness :
    (wState1.user_question = wState0.user_question ∧ wState1.entities = wState0.entities ∧
     wState1.cypher_query = wState0.cypher_query ∧ wState1.results = wState0.results ∧
     wState1.final_answer = wState0.final_answer ∧ wState1.error = wState0.error) ∧
    (wState2.user_question = wState1.user_question ∧
     wState2.question_type = wState1.question_type ∧
     wState2.cypher_query = wState1.cypher_query ∧ wState2.results = wState1.results ∧
     wState2.final_answer = wState1.final_answer ∧ wState2.error = wState1.error) ∧
    (wState3.user_question = wState2.user_question ∧
     wState3.question_type = wState2.question_type ∧
     wState3.entities = wState2.entities ∧ wState3.results = wState2.results ∧
     wState3.final_answer = wState2.final_answer ∧ wState3.error = wState2.error) ∧
    ((execute_query okCollab wState3).user_question = wState3.user_question ∧
     (execute_query okCollab wState3).question_type = wState3.question_type ∧
     (execute_query okCollab wState3).entities = wState3.entities ∧
     (execute_query okCollab wState3).cypher_query = wState3.cypher_query ∧
     (execute_query okCollab wState3).final_answer = wState3.final_answer) ∧
    (wState5.user_question = (execute_query okCollab wState3).user_question ∧
     wState5.question_type = (execute_query okCollab wState3).question_type ∧
     wState5.entities = (execute_query okCollab wState3).entities ∧
     wState5.cypher_query = (execute_query okCollab wState3).cypher_query ∧
     wState5.results = (execute_query okCollab wState3).results ∧
     wState5.error = (execute_query okCollab wState3).error) ∧
    wState5.user_question = wState0.user_question :=
  c8_write_once_state okCollab wState0 wState1 wState2 wState3 wState5 rfl rfl rfl rfl

/-! ## Claim C6 — the answer-match rule -/

/-- The evaluator's if/elif answer check collapses to set equality: the
explicit empty-vs-empty branch is subsumed by equality of the two
normalized sets. -/
theorem answerScore_iff (raw expected : List PyVal) :
    answerScore raw expected = true ↔
      extract_values_from_results raw = normSetOf expected := by
  unfold answerScore
  by_cases h : normSetOf expected = ∅ ∧ extract_values_from_results raw = ∅
  · rw [if_pos h]
    simp [h.1, h.2]
  · rw [if_neg h]
    by_cases h2 : extract_values_from_results raw = normSetOf expected
    · rw [if_pos h2]
      simp [h2]
    · rw [if_neg h2]
      simp [h2]

/-- Claim C6, counterexample: the source's extraction is **not** the
recursive flattening the claim describes.  On the predicted row
`{"k": {"n": "a"}}` with expected values `["a"]`, recursive flattening
yields exactly the normalized expected set (so the claim predicts a
match), but `_extract_values_from_results` skips the nested dict value
entirely, extracts the empty set, and the counter is not incremented. -/
theorem c6_counterexample :
    answerScore [rowNested] [.str "a"] = false ∧
    specFlattenRows [rowNested] = normSetOf [.str "a"] := by
  constructor
  · decide
  · decide

/-- Claim C6 as amended: the answer match counter is incremented exactly
when the normalized set of values extracted by the source's one-level
flattening — dict rows contribute their scalar values and the
(stringified) elements of their list values, scalar rows contribute
themselves, and nested dicts / deeper nesting are ignored — equals the
normalized set of expected answer values; the empty-expected vs
empty-predicted special case is subsumed by the set equality. -/
theorem c6_answer_match_rule :
    (∀ raw expected : List PyVal,
      answerScore raw expected = true ↔
        extract_values_from_results raw = normSetOf expected) ∧
    answerScore [] [] = true := by
  refine ⟨answerScore_iff, rfl⟩

/-! ## Claim C9 — conversation grouping and memory clearing -/

/-- One scored example appends exactly one run event. -/
theorem scoreExample_events (ag : EvalAgent) (st : EvalLoop) (ex : EvalExample) :
    (scoreExample ag st ex).events = st.events ++ [.run ex.question] := rfl

/-- Scoring a list of examples appends their run events in order. -/
theorem foldl_scoreExample_events (ag : EvalAgent) (exs : List EvalExample) (st : EvalLoop) :
    (exs.foldl (scoreExample ag) st).events =
      st.events ++ exs.map (fun ex => EvalEvent.run ex.question) := by
  induction exs generalizing st with
  | nil => simp
  | cons ex t ih =>
    rw [List.foldl_cons, ih, scoreExample_events]
    simp

/-- One group appends an optional clear event followed by its run
events. -/
theorem runGroup_events (ag : EvalAgent) (st : EvalLoop) (g : String × List EvalExample) :
    (runGroup ag st g).events =
      st.events ++ ((if ag.memoryEnabled then [EvalEvent.clear] else []) ++
        g.snd.map (fun ex => EvalEvent.run ex.question)) := by
  unfold runGroup
  by_cases m : ag.memoryEnabled
  · rw [if_pos m, if_pos m, foldl_scoreExample_events]
    simp
  · rw [if_neg m, if_neg m, foldl_scoreExample_events]
    simp

/-- The full outer loop emits, per group in order, the optional clear
event followed by that group's run events. -/
theorem foldl_runGroup_events (ag : EvalAgent) (gs : List (String × List EvalExample))
    (st : EvalLoop) :
    (gs.foldl (runGroup ag) st).events =
      st.events ++ gs.flatMap (fun g =>
        (if ag.memoryEnabled then [EvalEvent.clear] else []) ++
          g.snd.map (fun ex => EvalEvent.run ex.question)) := by
  induction gs generalizing st with
  | nil => simp
  | cons g t ih =>
    rw [List.foldl_cons, ih, runGroup_events]
    simp

/-- Adding one example keeps every group's example list a subsequence of
the processed prefix. -/
theorem addToGroups_sublist {acc : List (String × List EvalExample)}
    {pre : List EvalExample} (hinv : ∀ g ∈ acc, g.snd.Sublist pre) (ex : EvalExample) :
    ∀ g ∈ addToGroups acc ex, g.snd.Sublist (pre ++ [ex]) := by
  intro g hg
  unfold addToGroups at hg
  by_cases hk : acc.any (fun p =>
      p.fst = match ex.conversation_id with
        | some c => c
        | none => "single_" ++ toString acc.length)
  · rw [if_pos hk] at hg
    rw [List.mem_map] at hg
    obtain ⟨p, hp, rfl⟩ := hg
    by_cases hpk : p.fst = (match ex.conversation_id with
        | some c => c
        | none => "single_" ++ toString acc.length)
    · rw [if_pos hpk]
      exact (hinv p hp).append (List.Sublist.refl [ex])
    · rw [if_neg hpk]
      exact (hinv p hp).trans (List.sublist_append_left pre [ex])
  · rw [if_neg hk] at hg
    rw [List.mem_append] at hg
    rcases hg with hg | hg
    · exact (hinv g hg).trans (List.sublist_append_left pre [ex])
    · rw [List.mem_singleton] at hg
      subst hg
      exact List.sublist_append_right pre [ex]

/-- Folding the grouping step preserves the subsequence invariant. -/
theorem foldl_groups_sublist (ds : List EvalExample) :
    ∀ (acc : List (String × List EvalExample)) (pre : List EvalExample),
      (∀ g ∈ acc, g.snd.Sublist pre) →
      ∀ g ∈ ds.foldl addToGroups acc, g.snd.Sublist (pre ++ ds) := by
  induction ds with
  | nil => intro acc pre hinv g hg; simpa using hinv g hg
  | cons ex t ih =>
    intro acc pre hinv g hg
    rw [List.foldl_cons] at hg
    have := ih (addToGroups acc ex) (pre ++ [ex]) (addToGroups_sublist hinv ex) g hg
    simpa [List.append_assoc] using this

/-- Every group's example list is a subsequence of the dataset, in input
order. -/
theorem groups_sublist (ds : List EvalExample) :
    ∀ g ∈ groupByConversation ds, g.snd.Sublist ds := by
  intro g hg
  have := foldl_groups_sublist ds [] [] (by intro g hg; simp at hg) g hg
  simpa using this

/-- Claim C9, counterexample: examples lacking a `conversation_id` do
**not** always form their own singleton group.  The fallback key is
`"single_" + str(len(grouped_dataset))`, so when an explicit
`conversation_id` `"single_1"` is already present, the id-less second
example collides with it and joins that conversation: the dataset
`[exPlanted, exNoConv]` produces one group of two examples, and the
memory-clear collaborator is invoked once, not once per the two groups
the claim predicts. -/
theorem c9_counterexample :
    groupByConversation [exPlanted, exNoConv] = [("single_1", [exPlanted, exNoConv])] ∧
    ((evaluate memAgent [exPlanted, exNoConv]).snd.filter EvalEvent.isClear).length = 1 := by
  constructor
  · decide
  · decide

/-- Claim C9 as amended: with conversation memory enabled, the evaluator
groups examples by `conversation_id` (an example lacking one gets the
key `"single_" + str(number of groups so far)`, which joins an existing
group when an explicit conversation id of that exact form collides with
it, and otherwise starts its own singleton group), each group's examples
keep their input order (each group is a subsequence of the dataset), and
the memory-clear method is invoked exactly once per distinct group —
immediately before that group's first example and not before every
example. -/
theorem c9_memory_clear_per_group (ag : EvalAgent) (ds : List EvalExample)
    (hm : ag.memoryEnabled = true) :
    (evaluate ag ds).snd = (groupByConversation ds).flatMap
        (fun g => EvalEvent.clear :: g.snd.map (fun ex => EvalEvent.run ex.question)) ∧
    ((evaluate ag ds).snd.filter EvalEvent.isClear).length =
      (groupByConversation ds).length ∧
    (∀ g ∈ groupByConversation ds, g.snd.Sublist ds) := by
  have hev : (evaluate ag ds).snd = (groupByConversation ds).flatMap
      (fun g => EvalEvent.clear :: g.snd.map (fun ex => EvalEvent.run ex.question)) := by
    show (((groupByConversation ds).foldl (runGroup ag) ⟨0, 0, 0, [], []⟩)).events = _
    rw [foldl_runGroup_events]
    simp [hm]
  refine ⟨hev, ?_, groups_sublist ds⟩
  rw [hev]
  induction groupByConversation ds with
  | nil => simp
  | cons g t ih =>
    simp only [List.flatMap_cons, List.filter_append, List.length_append, List.filter_cons]
    simp only [EvalEvent.isClear, List.length_cons]
    rw [List.filter_eq_nil_iff.mpr ?hruns]
    case hruns =>
      intro e he
      rw [List.mem_map] at he
      obtain ⟨ex, _, rfl⟩ := he
      simp [EvalEvent.isClear]
    rw [ih]
    simp [Nat.add_comm]

/-- Witness for C9: the amended statement instantiated on a dataset with
two groups — conversation `"convA"` holding two examples and a singleton
group for the id-less example. -/
theorem c9_memory_clear_per_group_witness :
    (evaluate memAgent [exConvA, exConvA2, exNoConv]).snd =
      (groupByConversation [exConvA, exConvA2, exNoConv]).flatMap
        (fun g => EvalEvent.clear :: g.snd.map (fun ex => EvalEvent.run ex.question)) ∧
    ((evaluate memAgent [exConvA, exConvA2, exNoConv]).snd.filter EvalEvent.isClear).length =
      (groupByConversation [exConvA, exConvA2, exNoConv]).length ∧
    (∀ g ∈ groupByConversation [exConvA, exConvA2, exNoConv], g.snd.Sublist
      [exConvA, exConvA2, exNoConv]) :=
  c9_memory_clear_per_group memAgent [exConvA, exConvA2, exNoConv] rfl

/-! ## Claim C10 — truncated `raw_results` and answer scoring -/

/-- Claim C10: in every run whose executed query returns `rs`, the
result's `results_count` equals `rs.length` but its `raw_results` holds
only the first `min(len(rs), 3)` rows (`rs.take 3`); consequently the
evaluator's answer scoring, which extracts values from `raw_results`,
compares the expected values only against the values present in the
first 3 rows. -/
theorem c10_raw_results_truncated (c : Collab) (q t1 t2 t3 : String) (rs : List PyVal)
    (h1 : c.classify q = .ok t1)
    (h2 : c.extractAPI q = .ok t2)
    (h3 : c.generate q (pyStrip t1) ((c.parseEntities (pyStrip t2)).getD []) = .ok t3)
    (hq : cleanQuery t3 ≠ "")
    (he : c.executeQuery (cleanQuery t3) = .ok rs)
    (hfmt : ∀ a r n, ∃ t, c.formatLLM a r n = .ok t) :
    ∃ r, answer_question c q = .ok r ∧
      r.results_count = rs.length ∧
      r.raw_results = rs.take 3 ∧
      (∀ expected : List PyVal,
        answerScore r.raw_results expected = true ↔
          extract_values_from_results (rs.take 3) = normSetOf expected) := by
  unfold answer_question
  rw [classify_question_eq c (initState q) h1]
  simp only [Bind.bind, Except.bind]
  rw [extract_entities_eq c _ h2]
  simp only [Bind.bind, Except.bind]
  rw [generate_query_eq c _ h3]
  simp only [Bind.bind, Except.bind]
  rw [execute_query_rows c _ rfl hq he]
  by_cases hrs : rs = []
  · subst hrs
    refine ⟨_, rfl, rfl, rfl, ?_⟩
    intro expected
    exact answerScore_iff [] expected
  · obtain ⟨t4, hf⟩ := hfmt q (rs.take 5) rs.length
    rw [format_answer_success c _ rfl (by simpa using hrs) (by simpa using hf)]
    refine ⟨_, rfl, rfl, rfl, ?_⟩
    intro expected
    exact answerScore_iff (rs.take 3) expected

/-- Witness for C10: the concrete run of `okCollab`, whose store returns
four rows; the result reports all four but exposes only the first
three. -/
theorem c10_raw_results_truncated_witness :
    ∃ r, answer_question okCollab wQuestion = .ok r ∧
      r.results_count = [rowLisinopril, rowEnalapril, rowCaptopril, rowGene].length ∧
      r.raw_results = [rowLisinopril, rowEnalapril, rowCaptopril, rowGene].take 3 ∧
      (∀ expected : List PyVal,
        answerScore r.raw_results expected = true ↔
          extract_values_from_results
            ([rowLisinopril, rowEnalapril, rowCaptopril, rowGene].take 3) =
            normSetOf expected) :=
  c10_raw_results_truncated okCollab wQuestion "gene_disease" "[\"Hypertension\"]"
    "MATCH (d:Drug) RETURN dr.drug_name LIMIT 10"
    [rowLisinopril, rowEnalapril, rowCaptopril, rowGene]
    rfl rfl rfl (by decide) rfl (fun _ _ _ => ⟨_, rfl⟩)
